import Mathlib

/-!
Shallow embedding of the fitness-tracker simulator
(`src/services/fitness_simulator.py`, `src/config.py`,
`src/model/biometric.py`, `app.py`).

Random draws (`random.randint`, `random.uniform`, `random.random`,
`random.choices`) are modelled as explicit oracle inputs, constrained by
validity predicates that record the ranges the Python RNG calls guarantee.
Python floats are modelled as rationals; `round(x, 1)` is modelled as
rounding to the nearest multiple of 1/10.  Mutation of the simulator
object is modelled as explicit state passing.
-/

namespace Fitness

/-- The four activity states of the simulator
(`self.activity_state ∈ {'resting','light','moderate','intense'}`). -/
inductive ActivityState where
  | resting
  | light
  | moderate
  | intense
deriving DecidableEq, Repr

open ActivityState

/-! ### Configuration (`src/config.py`, class `Config`) -/

/-- `Config.SENSORS['frecuencia_cardiaca']['min']`. -/
def SENSORS_fc_min : ℤ := 60

/-- `Config.SENSORS['frecuencia_cardiaca']['max']`. -/
def SENSORS_fc_max : ℤ := 180

/-- `Config.SENSORS['oxigeno']['min']`. -/
def SENSORS_ox_min : ℚ := 95

/-- `Config.SENSORS['oxigeno']['max']`. -/
def SENSORS_ox_max : ℚ := 100

/-- `Config.SENSORS['temperatura']['min']` (36.1 °C). -/
def SENSORS_temp_min : ℚ := 361/10

/-- `Config.SENSORS['temperatura']['max']` (37.5 °C). -/
def SENSORS_temp_max : ℚ := 375/10

/-- `Config.HEART_RATE_ZONES`: ordered association list
(zone name, min, max, color), in Python dict insertion order. -/
def HEART_RATE_ZONES : List (String × ℤ × ℤ × String) :=
  [("reposo",   0,  60, "#6b7280"),
   ("ligera",  60, 100, "#10b981"),
   ("moderada", 100, 140, "#f59e0b"),
   ("intensa", 140, 170, "#ef4444"),
   ("maxima",  170, 220, "#dc2626")]

/-! ### Data model (`src/model/biometric.py`) -/

/-- `BiometricReading`: one biometric sample.  The `timestamp` field is
modelled as an abstract tick index (the claims never inspect wall time). -/
structure BiometricReading where
  frecuencia_cardiaca : ℤ
  pasos : ℤ
  oxigeno : ℚ
  temperatura : ℚ
deriving DecidableEq, Repr

/-- `BiometricReading.get_heart_rate_zone`: the if/elif chain in
`src/model/biometric.py` lines 61-74. -/
def get_heart_rate_zone (hr : ℤ) : String :=
  if hr < 60 then "reposo"
  else if hr < 100 then "ligera"
  else if hr < 140 then "moderada"
  else if hr < 170 then "intensa"
  else "maxima"

/-- The zone lookup of the `/api/heart_rate/zone` handler (`app.py`
lines 105-108): the first zone of `HEART_RATE_ZONES` with
`min ≤ hr < max`, falling back to `"reposo"` when none matches. -/
def apiZone (hr : ℤ) : String :=
  ((HEART_RATE_ZONES.find? fun z =>
      decide (z.2.1 ≤ hr) && decide (hr < z.2.2.1)).map (·.1)).getD "reposo"

/-- The color the API handler reports: `zones[zone]["color"]` for the
zone name computed by `apiZone`. -/
def apiZoneColor (hr : ℤ) : String :=
  (((HEART_RATE_ZONES.find? fun z => decide (z.1 = apiZone hr)).map
      (·.2.2.2)).getD "")

/-- The color `Config.HEART_RATE_ZONES[name]['color']` for a zone name. -/
def zoneColor (name : String) : String :=
  (((HEART_RATE_ZONES.find? fun z => decide (z.1 = name)).map
      (·.2.2.2)).getD "")

/-! ### Arithmetic helpers mirroring Python primitives -/

/-- `max(lo, min(x, hi))` on integers, the clamping idiom of
`_generate_heart_rate`. -/
def clampZ (lo hi x : ℤ) : ℤ := max lo (min x hi)

/-- `max(lo, min(x, hi))` on rationals, the clamping idiom of
`_generate_oxygen` and `_generate_temperature`. -/
def clampQ (lo hi x : ℚ) : ℚ := max lo (min x hi)

/-- Python `round(x, 1)`: round to the nearest multiple of 1/10. -/
def round1 (x : ℚ) : ℚ := ((round (x * 10) : ℤ) : ℚ) / 10

/-! ### Simulator state (`FitnessSimulator.__init__`) -/

/-- The mutable fields of the `FitnessSimulator` object, plus the one
configuration value the engine reads (`config.DEVICE_INTERVAL`). -/
structure FitnessSimulator where
  is_running : Bool
  activity_state : ActivityState
  total_steps : ℤ
  baseline_hr : ℤ
  device_interval : ℕ
deriving DecidableEq, Repr

/-- The state `__init__` sets up: stopped, resting, 0 steps,
baseline 75 bpm, default interval 5 s. -/
def initSimulator : FitnessSimulator :=
  { is_running := false
    activity_state := resting
    total_steps := 0
    baseline_hr := 75
    device_interval := 5 }

/-! ### Signal generators -/

/-- Lower bound of the `random.randint` target range in
`_generate_heart_rate`, per activity state. -/
def hrTargetLo : ActivityState → ℤ
  | resting => 60
  | light => 90
  | moderate => 120
  | intense => 150

/-- Upper bound of the `random.randint` target range in
`_generate_heart_rate`, per activity state. -/
def hrTargetHi : ActivityState → ℤ
  | resting => 80
  | light => 110
  | moderate => 140
  | intense => 175

/-- `_generate_heart_rate`, with the two `random.randint` draws
(target in the per-state range, noise in [-5,5]) as inputs:
`hr = max(min_fc, min(target + noise, max_fc))`. -/
def generate_heart_rate (target noise : ℤ) : ℤ :=
  clampZ SENSORS_fc_min SENSORS_fc_max (target + noise)

/-- Lower bound of the `random.randint` step increment in
`_generate_steps`, per activity state. -/
def stepIncLo : ActivityState → ℤ
  | resting => 0
  | light => 3
  | moderate => 10
  | intense => 25

/-- Upper bound of the `random.randint` step increment in
`_generate_steps`, per activity state. -/
def stepIncHi : ActivityState → ℤ
  | resting => 2
  | light => 8
  | moderate => 20
  | intense => 40

/-- `_generate_steps`: adds the drawn increment to `self.total_steps`
and returns the new cumulative total. -/
def generate_steps (sim : FitnessSimulator) (inc : ℤ) :
    FitnessSimulator × ℤ :=
  ({ sim with total_steps := sim.total_steps + inc },
   sim.total_steps + inc)

/-- Lower bound of the `random.uniform` base draw in `_generate_oxygen`:
[95.0, 98.0] when intense, [97.0, 100.0] otherwise. -/
def oxBaseLo (s : ActivityState) : ℚ := if s = intense then 95 else 97

/-- Upper bound of the `random.uniform` base draw in `_generate_oxygen`. -/
def oxBaseHi (s : ActivityState) : ℚ := if s = intense then 98 else 100

/-- `_generate_oxygen` with the two uniform draws as inputs: base plus
noise in [-0.5, 0.5], clamped to [95, 100], rounded to one decimal. -/
def generate_oxygen (base noise : ℚ) : ℚ :=
  round1 (clampQ SENSORS_ox_min SENSORS_ox_max (base + noise))

/-- Lower bound of the `random.uniform` base draw in
`_generate_temperature`, per activity state. -/
def tempBaseLo : ActivityState → ℚ
  | resting => 363/10
  | light => 366/10
  | moderate => 369/10
  | intense => 370/10

/-- Upper bound of the `random.uniform` base draw in
`_generate_temperature`, per activity state. -/
def tempBaseHi : ActivityState → ℚ
  | resting => 368/10
  | light => 370/10
  | moderate => 373/10
  | intense => 375/10

/-- `_generate_temperature` with the two uniform draws as inputs: base
plus noise in [-0.1, 0.1], clamped to [36.1, 37.5], rounded to one
decimal. -/
def generate_temperature (base noise : ℚ) : ℚ :=
  round1 (clampQ SENSORS_temp_min SENSORS_temp_max (base + noise))

/-! ### Activity-state transition (`_change_activity_state`) -/

/-- `random.choices(states, weights=[0.4,0.3,0.2,0.1])[0]` modelled on a
uniform draw `u ∈ [0,1)`: first state whose cumulative weight exceeds
`u` (cumulative weights 0.4, 0.7, 0.9, 1.0). -/
def chooseState (u : ℚ) : ActivityState :=
  if u < 2/5 then resting
  else if u < 7/10 then light
  else if u < 9/10 then moderate
  else intense

/-- `_change_activity_state` with the `random.random()` draw `p` and the
`random.choices` draw `u` as inputs: with `p < 0.2` replace the state by
a categorical draw, otherwise leave it unchanged.  Only the
`activity_state` field is written. -/
def change_activity_state (sim : FitnessSimulator) (p u : ℚ) :
    FitnessSimulator :=
  if p < 1/5 then { sim with activity_state := chooseState u } else sim

/-! ### One generation tick (`generate_reading`, `save_reading`,
`_simulation_loop`) -/

/-- All random draws consumed by one `generate_reading` call, in the
order the Python code makes them. -/
structure TickOracle where
  p_change : ℚ
  u_choice : ℚ
  hr_target : ℤ
  hr_noise : ℤ
  step_inc : ℤ
  ox_base : ℚ
  ox_noise : ℚ
  temp_base : ℚ
  temp_noise : ℚ
deriving DecidableEq, Repr

/-- The ranges Python's RNG calls guarantee for the draws of one tick.
The per-state ranges are taken at the post-transition activity state,
since `_change_activity_state` runs before the four generators. -/
def TickOracle.Valid (s : ActivityState) (o : TickOracle) : Prop :=
  0 ≤ o.p_change ∧ o.p_change < 1 ∧
  0 ≤ o.u_choice ∧ o.u_choice < 1 ∧
  (let sNew := if o.p_change < 1/5 then chooseState o.u_choice else s
   hrTargetLo sNew ≤ o.hr_target ∧ o.hr_target ≤ hrTargetHi sNew ∧
   -5 ≤ o.hr_noise ∧ o.hr_noise ≤ 5 ∧
   stepIncLo sNew ≤ o.step_inc ∧ o.step_inc ≤ stepIncHi sNew ∧
   oxBaseLo sNew ≤ o.ox_base ∧ o.ox_base ≤ oxBaseHi sNew ∧
   -(1/2) ≤ o.ox_noise ∧ o.ox_noise ≤ 1/2 ∧
   tempBaseLo sNew ≤ o.temp_base ∧ o.temp_base ≤ tempBaseHi sNew ∧
   -(1/10) ≤ o.temp_noise ∧ o.temp_noise ≤ 1/10)

instance (s : ActivityState) (o : TickOracle) :
    Decidable (o.Valid s) := by
  unfold TickOracle.Valid
  infer_instance

/-- `generate_reading`: transition the activity state, run the four
generators, build the reading.  Returns the updated simulator and the
reading. -/
def generate_reading (sim : FitnessSimulator) (o : TickOracle) :
    FitnessSimulator × BiometricReading :=
  let sim1 := change_activity_state sim o.p_change o.u_choice
  let hr := generate_heart_rate o.hr_target o.hr_noise
  let stepsRes := generate_steps sim1 o.step_inc
  let spo2 := generate_oxygen o.ox_base o.ox_noise
  let temp := generate_temperature o.temp_base o.temp_noise
  (stepsRes.1,
   { frecuencia_cardiaca := hr
     pasos := stepsRes.2
     oxigeno := spo2
     temperatura := temp })

/-- Outcome of the MongoDB `insert_one` call inside `save_reading`:
either it returns an inserted id or it raises. -/
inductive StoreBehavior where
  | succeeds (id : ℕ)
  | throws
deriving DecidableEq, Repr

/-- `save_reading`: the insert is wrapped in try/except, so a raising
store yields `none` (Python `None`) instead of propagating. -/
def save_reading (b : StoreBehavior) : Option ℕ :=
  match b with
  | .succeeds i => some i
  | .throws => none

/-- One iteration of the `while self.is_running` body of
`_simulation_loop`: generate a reading, attempt to save it, then sleep
`config.DEVICE_INTERVAL` seconds (the same interval is slept on the
exception path).  Returns the updated simulator, the save result, and
the slept interval. -/
def simulationTick (sim : FitnessSimulator) (o : TickOracle)
    (b : StoreBehavior) : FitnessSimulator × Option ℕ × ℕ :=
  let genRes := generate_reading sim o
  (genRes.1, save_reading b, sim.device_interval)

/-! ### Lifecycle (`start`, `stop`, `reset_steps`, `get_status`) -/

/-- `start`: if already running, return without change; otherwise set
the running flag (thread spawning is outside the state model). -/
def start (sim : FitnessSimulator) : FitnessSimulator :=
  if sim.is_running then sim else { sim with is_running := true }

/-- `stop`: if not running, return without change; otherwise clear the
running flag (the bounded thread join is outside the state model). -/
def stop (sim : FitnessSimulator) : FitnessSimulator :=
  if sim.is_running then { sim with is_running := false } else sim

/-- `reset_steps`: set `self.total_steps = 0`. -/
def reset_steps (sim : FitnessSimulator) : FitnessSimulator :=
  { sim with total_steps := 0 }

/-- The snapshot dictionary returned by `get_status`. -/
structure Status where
  running : Bool
  activity_state : ActivityState
  total_steps : ℤ
  baseline_hr : ℤ
  interval : ℕ
deriving DecidableEq, Repr

/-- `get_status`: a copy of the engine's current fields. -/
def get_status (sim : FitnessSimulator) : Status :=
  { running := sim.is_running
    activity_state := sim.activity_state
    total_steps := sim.total_steps
    baseline_hr := sim.baseline_hr
    interval := sim.device_interval }

/-! ## Helper lemmas -/

lemma le_clampZ (lo hi x : ℤ) : lo ≤ clampZ lo hi x := le_max_left _ _

lemma clampZ_le {lo hi : ℤ} (x : ℤ) (h : lo ≤ hi) : clampZ lo hi x ≤ hi :=
  max_le h (min_le_right _ _)

lemma le_clampQ (lo hi x : ℚ) : lo ≤ clampQ lo hi x := le_max_left _ _

lemma clampQ_le {lo hi : ℚ} (x : ℚ) (h : lo ≤ hi) : clampQ lo hi x ≤ hi :=
  max_le h (min_le_right _ _)

lemma round1_intDiv (n : ℤ) : round1 ((n : ℚ)/10) = (n:ℚ)/10 := by
  unfold round1
  rw [div_mul_cancel₀ _ (by norm_num : (10:ℚ) ≠ 0), round_intCast]

lemma round1_mono {x y : ℚ} (h : x ≤ y) : round1 x ≤ round1 y := by
  unfold round1
  have h2 : round (x*10) ≤ round (y*10) := by
    rw [round_eq, round_eq]
    exact Int.floor_mono (by linarith)
  have h3 : ((round (x*10) : ℤ) : ℚ) ≤ ((round (y*10) : ℤ) : ℚ) :=
    Int.cast_le.mpr h2
  linarith

/-- Rounding to one decimal keeps a value inside a closed interval whose
endpoints are themselves one-decimal values. -/
lemma round1_range {lo hi x : ℚ} (nlo nhi : ℤ) (hlo : lo = (nlo:ℚ)/10)
    (hhi : hi = (nhi:ℚ)/10) (h1 : lo ≤ x) (h2 : x ≤ hi) :
    lo ≤ round1 x ∧ round1 x ≤ hi := by
  constructor
  · calc lo = round1 lo := by rw [hlo, round1_intDiv]
      _ ≤ round1 x := round1_mono h1
  · calc round1 x ≤ round1 hi := round1_mono h2
      _ = hi := by rw [hhi, round1_intDiv]

lemma stepIncLo_nonneg (s : ActivityState) : 0 ≤ stepIncLo s := by
  cases s <;> norm_num [stepIncLo]

lemma stepIncHi_le_forty (s : ActivityState) : stepIncHi s ≤ 40 := by
  cases s <;> norm_num [stepIncHi]

lemma change_activity_state_frame (sim : FitnessSimulator) (p u : ℚ) :
    (change_activity_state sim p u).total_steps = sim.total_steps ∧
    (change_activity_state sim p u).is_running = sim.is_running ∧
    (change_activity_state sim p u).baseline_hr = sim.baseline_hr ∧
    (change_activity_state sim p u).device_interval = sim.device_interval := by
  unfold change_activity_state
  split <;> exact ⟨rfl, rfl, rfl, rfl⟩

lemma change_activity_state_state (sim : FitnessSimulator) (p u : ℚ) :
    (change_activity_state sim p u).activity_state =
      if p < 1/5 then chooseState u else sim.activity_state := by
  unfold change_activity_state
  split <;> rfl

/-- The steps bookkeeping of one `generate_reading` call: the reading's
`pasos` field and the updated accumulator both equal the previous
accumulator plus this tick's increment draw. -/
lemma generate_reading_steps (sim : FitnessSimulator) (o : TickOracle) :
    ((generate_reading sim o).2).pasos = sim.total_steps + o.step_inc ∧
    ((generate_reading sim o).1).total_steps =
      sim.total_steps + o.step_inc := by
  unfold generate_reading generate_steps change_activity_state
  split <;> exact ⟨rfl, rfl⟩

lemma generate_reading_frame (sim : FitnessSimulator) (o : TickOracle) :
    ((generate_reading sim o).1).is_running = sim.is_running ∧
    ((generate_reading sim o).1).baseline_hr = sim.baseline_hr ∧
    ((generate_reading sim o).1).device_interval = sim.device_interval := by
  unfold generate_reading generate_steps change_activity_state
  split <;> exact ⟨rfl, rfl, rfl⟩

/-- The step-increment draw of a valid tick oracle is non-negative. -/
lemma TickOracle.Valid.step_inc_nonneg {s : ActivityState}
    {o : TickOracle} (h : o.Valid s) : 0 ≤ o.step_inc := by
  obtain ⟨-, -, -, -, -, -, -, -, h9, -⟩ := h
  exact le_trans (stepIncLo_nonneg _) h9

/-! ## Claims -/

/-- C1: every reading produced by `generate_reading`, for every activity
state and all random draws (even outside the RNG's guaranteed ranges),
has heart rate in [60,180], oxygen saturation in [95.0,100.0] and body
temperature in [36.1,37.5] — clamping after noise addition guarantees
the declared sensor ranges. -/
theorem C1_generate_reading_ranges (sim : FitnessSimulator)
    (o : TickOracle) :
    60 ≤ ((generate_reading sim o).2).frecuencia_cardiaca ∧
    ((generate_reading sim o).2).frecuencia_cardiaca ≤ 180 ∧
    95 ≤ ((generate_reading sim o).2).oxigeno ∧
    ((generate_reading sim o).2).oxigeno ≤ 100 ∧
    361/10 ≤ ((generate_reading sim o).2).temperatura ∧
    ((generate_reading sim o).2).temperatura ≤ 375/10 := by
  unfold generate_reading generate_heart_rate generate_oxygen
    generate_temperature generate_steps
  simp only [SENSORS_fc_min, SENSORS_fc_max, SENSORS_ox_min, SENSORS_ox_max,
    SENSORS_temp_min, SENSORS_temp_max]
  have hox := round1_range (x := clampQ 95 100 (o.ox_base + o.ox_noise))
    950 1000 (by norm_num) (by norm_num)
    (le_clampQ _ _ _) (clampQ_le _ (by norm_num))
  have htemp := round1_range
    (x := clampQ (361/10) (375/10) (o.temp_base + o.temp_noise))
    361 375 (by norm_num) (by norm_num)
    (le_clampQ _ _ _) (clampQ_le _ (by norm_num))
  exact ⟨le_clampZ _ _ _, clampZ_le _ (by norm_num),
    hox.1, hox.2, htemp.1, htemp.2⟩

/-- C4: the zone lookups map HR=59 to reposo/#6b7280, HR=60 to
ligera/#10b981, HR=139 to moderada/#f59e0b and HR=170 to
maxima/#dc2626, both in the API's config-table lookup and in
`BiometricReading.get_heart_rate_zone`, with the colors read from
`Config.HEART_RATE_ZONES`. -/
theorem C4_zone_samples :
    (apiZone 59 = "reposo" ∧ get_heart_rate_zone 59 = "reposo" ∧
      zoneColor "reposo" = "#6b7280") ∧
    (apiZone 60 = "ligera" ∧ get_heart_rate_zone 60 = "ligera" ∧
      zoneColor "ligera" = "#10b981") ∧
    (apiZone 139 = "moderada" ∧ get_heart_rate_zone 139 = "moderada" ∧
      zoneColor "moderada" = "#f59e0b") ∧
    (apiZone 170 = "maxima" ∧ get_heart_rate_zone 170 = "maxima" ∧
      zoneColor "maxima" = "#dc2626") := by
  decide

/-- C2: within one run the cumulative steps counter is non-decreasing:
a valid tick adds a non-negative increment, so each reading's `pasos` is
at least the previous reading's, and neither `start` nor `stop` changes
the accumulator — only `reset_steps` (to zero) can lower it. -/
theorem C2_steps_monotone (sim : FitnessSimulator) (o1 o2 : TickOracle)
    (h1 : o1.Valid sim.activity_state)
    (h2 : o2.Valid ((generate_reading sim o1).1).activity_state) :
    sim.total_steps ≤ ((generate_reading sim o1).2).pasos ∧
    ((generate_reading sim o1).2).pasos ≤
      ((generate_reading ((generate_reading sim o1).1) o2).2).pasos ∧
    (start sim).total_steps = sim.total_steps ∧
    (stop sim).total_steps = sim.total_steps ∧
    (reset_steps sim).total_steps = 0 := by
  obtain ⟨e1, e2⟩ := generate_reading_steps sim o1
  obtain ⟨e3, -⟩ := generate_reading_steps ((generate_reading sim o1).1) o2
  have n1 := h1.step_inc_nonneg
  have n2 := h2.step_inc_nonneg
  refine ⟨by omega, by omega, ?_, ?_, rfl⟩
  · unfold start; split <;> rfl
  · unfold stop; split <;> rfl

/-- Witness for C2 at a concrete simulator and two concrete valid tick
oracles. -/
theorem C2_steps_monotone_witness :
    initSimulator.total_steps ≤
      ((generate_reading initSimulator
        ⟨1/2, 0, 70, 0, 1, 98, 0, 365/10, 0⟩).2).pasos := by
  have h1 : TickOracle.Valid initSimulator.activity_state
      ⟨1/2, 0, 70, 0, 1, 98, 0, 365/10, 0⟩ := by
    norm_num [TickOracle.Valid, initSimulator, chooseState, hrTargetLo,
      hrTargetHi, stepIncLo, stepIncHi, oxBaseLo, oxBaseHi, tempBaseLo,
      tempBaseHi, show resting ≠ intense from by decide]
  have h2 : TickOracle.Valid
      ((generate_reading initSimulator
        ⟨1/2, 0, 70, 0, 1, 98, 0, 365/10, 0⟩).1).activity_state
      ⟨1/2, 0, 70, 0, 1, 98, 0, 365/10, 0⟩ := by
    norm_num [TickOracle.Valid, initSimulator, generate_reading,
      generate_steps, change_activity_state, chooseState, hrTargetLo,
      hrTargetHi, stepIncLo, stepIncHi, oxBaseLo, oxBaseHi, tempBaseLo,
      tempBaseHi, generate_heart_rate, generate_oxygen,
      generate_temperature, show resting ≠ intense from by decide]
  exact (C2_steps_monotone initSimulator _ _ h1 h2).1

/-- C3: a persistence failure during a tick is non-fatal: the save
raising leaves the running flag unchanged (the loop guard still holds),
the save result is `None`, the loop sleeps the normal interval, and only
an explicit `stop` clears the running flag. -/
theorem C3_save_failure_nonfatal (sim : FitnessSimulator)
    (o : TickOracle) :
    ((simulationTick sim o .throws).1).is_running = sim.is_running ∧
    (simulationTick sim o .throws).2.1 = none ∧
    (simulationTick sim o .throws).2.2 = sim.device_interval ∧
    (stop { sim with is_running := true }).is_running = false := by
  refine ⟨(generate_reading_frame sim o).1, rfl, rfl, rfl⟩

/-- C5: `start` on a running engine performs no action (it is
idempotent), and `stop` on a stopped engine performs no action. -/
theorem C5_start_stop_idempotent (sim : FitnessSimulator) :
    (sim.is_running = true → start sim = sim) ∧
    start (start sim) = start sim ∧
    (sim.is_running = false → stop sim = sim) := by
  cases h : sim.is_running <;>
    simp [start, stop, h]

/-- Witness for C5 at concrete running and stopped simulators. -/
theorem C5_start_stop_idempotent_witness :
    start { initSimulator with is_running := true } =
      { initSimulator with is_running := true } ∧
    stop initSimulator = initSimulator := by
  exact ⟨(C5_start_stop_idempotent
      { initSimulator with is_running := true }).1 rfl,
    (C5_start_stop_idempotent initSimulator).2.2 rfl⟩

/-- C6: `reset_steps` zeroes the cumulative step accumulator and changes
nothing else: activity state, running flag, baseline heart rate and tick
interval are untouched, whether the engine is running or stopped. -/
theorem C6_reset_steps_frame (sim : FitnessSimulator) :
    (reset_steps sim).total_steps = 0 ∧
    (reset_steps sim).activity_state = sim.activity_state ∧
    (reset_steps sim).is_running = sim.is_running ∧
    (reset_steps sim).baseline_hr = sim.baseline_hr ∧
    (reset_steps sim).device_interval = sim.device_interval :=
  ⟨rfl, rfl, rfl, rfl, rfl⟩

lemma generate_reading_hr (sim : FitnessSimulator) (o : TickOracle) :
    ((generate_reading sim o).2).frecuencia_cardiaca =
      generate_heart_rate o.hr_target o.hr_noise := by
  unfold generate_reading generate_steps change_activity_state
  split <;> rfl

/-- C7: after `reset_steps` mid-run, the next reading's `pasos` equals
only that tick's own increment (a value between 0 and 40 depending on
the activity state), not the pre-reset cumulative total plus the
increment. -/
theorem C7_reset_then_next_reading (sim : FitnessSimulator)
    (o : TickOracle) (h : o.Valid sim.activity_state) :
    ((generate_reading (reset_steps sim) o).2).pasos = o.step_inc ∧
    0 ≤ o.step_inc ∧ o.step_inc ≤ 40 := by
  obtain ⟨e1, -⟩ := generate_reading_steps (reset_steps sim) o
  have e1' : ((generate_reading (reset_steps sim) o).2).pasos =
      o.step_inc := by
    simpa [reset_steps] using e1
  obtain ⟨-, -, -, -, -, -, -, -, h9, h10, -⟩ := h
  exact ⟨e1', le_trans (stepIncLo_nonneg _) h9,
    le_trans h10 (stepIncHi_le_forty _)⟩

/-- Witness for C7: resetting a simulator holding 500 accumulated steps
and ticking with increment draw 1 yields a reading with `pasos = 1`. -/
theorem C7_reset_then_next_reading_witness :
    ((generate_reading
        (reset_steps { initSimulator with total_steps := 500 })
        ⟨1/2, 0, 70, 0, 1, 98, 0, 365/10, 0⟩).2).pasos = 1 := by
  have h : TickOracle.Valid
      ({ initSimulator with total_steps := 500 } :
        FitnessSimulator).activity_state
      ⟨1/2, 0, 70, 0, 1, 98, 0, 365/10, 0⟩ := by
    norm_num [TickOracle.Valid, initSimulator, chooseState, hrTargetLo,
      hrTargetHi, stepIncLo, stepIncHi, oxBaseLo, oxBaseHi, tempBaseLo,
      tempBaseHi, show resting ≠ intense from by decide]
  exact (C7_reset_then_next_reading
    { initSimulator with total_steps := 500 } _ h).1

/-- C8: the activity-state transition, with the two random draws as
inputs in [0,1): when the first draw is below 0.2 the state is replaced
by a categorical draw whose preimages are the intervals
[0,0.4) ↦ resting, [0.4,0.7) ↦ light, [0.7,0.9) ↦ moderate,
[0.9,1) ↦ intense (the weights 0.4/0.3/0.2/0.1); otherwise the state is
unchanged; no other field of the engine is affected. -/
theorem C8_change_activity_state_spec (sim : FitnessSimulator)
    (p u : ℚ) (hp0 : 0 ≤ p) (hp1 : p < 1) (hu0 : 0 ≤ u) (hu1 : u < 1) :
    (p < 1/5 → change_activity_state sim p u =
      { sim with activity_state := chooseState u }) ∧
    (1/5 ≤ p → change_activity_state sim p u = sim) ∧
    (chooseState u = resting ↔ u < 2/5) ∧
    (chooseState u = light ↔ 2/5 ≤ u ∧ u < 7/10) ∧
    (chooseState u = moderate ↔ 7/10 ≤ u ∧ u < 9/10) ∧
    (chooseState u = intense ↔ 9/10 ≤ u) ∧
    (change_activity_state sim p u).total_steps = sim.total_steps ∧
    (change_activity_state sim p u).is_running = sim.is_running := by
  obtain ⟨f1, f2, -, -⟩ := change_activity_state_frame sim p u
  refine ⟨?_, ?_, ?_, ?_, ?_, ?_, f1, f2⟩
  · intro hb
    unfold change_activity_state
    rw [if_pos hb]
  · intro hb
    unfold change_activity_state
    rw [if_neg (by linarith)]
  all_goals
    unfold chooseState
    split_ifs with h1 h2 h3 <;> simp_all <;>
      first
        | linarith
        | (constructor <;> linarith)
        | (intro hx; linarith)
        | (rintro ⟨hx, hy⟩; linarith)

/-- Witness for C8: with first draw 0.1 (< 0.2) and categorical draw
0.5 the state becomes light and nothing else changes. -/
theorem C8_change_activity_state_spec_witness :
    change_activity_state initSimulator (1/10) (1/2) =
      { initSimulator with activity_state := light } := by
  have h := C8_change_activity_state_spec initSimulator (1/10) (1/2)
    (by norm_num) (by norm_num) (by norm_num) (by norm_num)
  have e1 := h.1 (by norm_num)
  have e2 : chooseState (1/2) = light :=
    h.2.2.2.1.mpr ⟨by norm_num, by norm_num⟩
  rw [e1, e2]

/-- C9: with the activity state held at resting and the transition
stubbed out (first draw at least 0.2), every generated reading's step
increment is in [0,2] and its heart rate is in [55,85] (target [60,80]
plus noise in [-5,5], clamped to the sensor range). -/
theorem C9_resting_tick (sim : FitnessSimulator) (o : TickOracle)
    (hs : sim.activity_state = resting) (hstub : 1/5 ≤ o.p_change)
    (h : o.Valid sim.activity_state) :
    0 ≤ ((generate_reading sim o).2).pasos - sim.total_steps ∧
    ((generate_reading sim o).2).pasos - sim.total_steps ≤ 2 ∧
    55 ≤ ((generate_reading sim o).2).frecuencia_cardiaca ∧
    ((generate_reading sim o).2).frecuencia_cardiaca ≤ 85 := by
  have hsNew : (if o.p_change < 1/5 then chooseState o.u_choice
      else sim.activity_state) = resting := by
    rw [if_neg (by linarith), hs]
  obtain ⟨-, -, -, -, h5, h6, h7, h8, h9, h10, -⟩ := h
  rw [hsNew] at h5 h6 h9 h10
  simp only [hrTargetLo, hrTargetHi, stepIncLo, stepIncHi] at h5 h6 h9 h10
  obtain ⟨e1, -⟩ := generate_reading_steps sim o
  have ehr := generate_reading_hr sim o
  refine ⟨by omega, by omega, ?_, ?_⟩
  · rw [ehr]
    unfold generate_heart_rate SENSORS_fc_min SENSORS_fc_max
    have := le_clampZ 60 180 (o.hr_target + o.hr_noise)
    omega
  · rw [ehr]
    unfold generate_heart_rate clampZ SENSORS_fc_min SENSORS_fc_max
    exact max_le (by norm_num)
      (le_trans (min_le_left _ _) (by linarith))

/-- Witness for C9 at the initial simulator and a concrete stubbed
oracle (no transition, target 70, noise 0, increment 1). -/
theorem C9_resting_tick_witness :
    0 ≤ ((generate_reading initSimulator
        ⟨1/2, 0, 70, 0, 1, 98, 0, 365/10, 0⟩).2).pasos -
      initSimulator.total_steps ∧
    ((generate_reading initSimulator
        ⟨1/2, 0, 70, 0, 1, 98, 0, 365/10, 0⟩).2).pasos -
      initSimulator.total_steps ≤ 2 ∧
    55 ≤ ((generate_reading initSimulator
        ⟨1/2, 0, 70, 0, 1, 98, 0, 365/10, 0⟩).2).frecuencia_cardiaca ∧
    ((generate_reading initSimulator
        ⟨1/2, 0, 70, 0, 1, 98, 0, 365/10, 0⟩).2).frecuencia_cardiaca
      ≤ 85 := by
  have h : TickOracle.Valid initSimulator.activity_state
      ⟨1/2, 0, 70, 0, 1, 98, 0, 365/10, 0⟩ := by
    norm_num [TickOracle.Valid, initSimulator, chooseState, hrTargetLo,
      hrTargetHi, stepIncLo, stepIncHi, oxBaseLo, oxBaseHi, tempBaseLo,
      tempBaseHi, show resting ≠ intense from by decide]
  exact C9_resting_tick initSimulator _ rfl (by norm_num) h

/-- C10: the API's config-table zone lookup and
`BiometricReading.get_heart_rate_zone` agree on every integer heart
rate in the clamped sensor range [60,180]; for heart rates of 220 and
above the API lookup falls back to "reposo" while
`get_heart_rate_zone` returns "maxima". -/
theorem C10_zone_lookups_agree :
    (∀ hr : ℤ, 60 ≤ hr → hr ≤ 180 →
      apiZone hr = get_heart_rate_zone hr) ∧
    (∀ hr : ℤ, 220 ≤ hr →
      apiZone hr = "reposo" ∧ get_heart_rate_zone hr = "maxima") := by
  constructor
  · intro hr h1 h2
    interval_cases hr <;> decide
  · intro hr h
    constructor
    · simp [apiZone, HEART_RATE_ZONES, List.find?,
        show ¬(hr < 60) by omega, show ¬(hr < 100) by omega,
        show ¬(hr < 140) by omega, show ¬(hr < 170) by omega,
        show ¬(hr < 220) by omega]
    · simp [get_heart_rate_zone,
        show ¬(hr < 60) by omega, show ¬(hr < 100) by omega,
        show ¬(hr < 140) by omega, show ¬(hr < 170) by omega]

/-- Witness for C10 at heart rates 100 (in the sensor range) and 250
(at or above 220). -/
theorem C10_zone_lookups_agree_witness :
    apiZone 100 = get_heart_rate_zone 100 ∧
    apiZone 250 = "reposo" ∧ get_heart_rate_zone 250 = "maxima" :=
  ⟨C10_zone_lookups_agree.1 100 (by norm_num) (by norm_num),
    (C10_zone_lookups_agree.2 250 (by norm_num)).1,
    (C10_zone_lookups_agree.2 250 (by norm_num)).2⟩

end Fitness
